import Mathlib

/-!
Verification development for a Binance-futures trading client (`src/Q1.py`).

The file shallowly embeds the parts of the program the claims are about:

* the WebSocket reconnect/backoff logic of `websocket_listener`
  (retry counter, exponential capped delay, reset-on-connect);
* the `Trader` state (`bid`, `ask`, `order_count`) with `update_ticker`,
  `get_mid_price` (including Python truthiness of `if self.bid and self.ask`)
  and one decision cycle of `trade_loop`;
* per-message parsing of the feed (`json.loads`, the `data` envelope,
  `float(payload[...])`, which Python exceptions the inner
  `except (KeyError, ValueError)` catches and which escape);
* `sign_query` (`urllib.parse.urlencode` with `quote_plus` escaping,
  HMAC-SHA256, hex digest) and the parameter lists built by
  `BinanceClient.place_order` / `cancel_all_orders`.

Numbers that are Python `float`s in the source are modelled as exact
rationals (`ℚ`); the one-decimal price formatting `f"{x:.1f}"` is modelled
as rounding to the nearest tenth.  Stateful async code is modelled as
explicit state-passing step functions; a REST call's outcome is an input
of the step (either a returned `(status, body)` pair or a raised
exception).
-/

/-! ### Configuration constants (module-level constants of `Q1.py`) -/

def MAX_RETRY_COUNT : Nat := 6

def RETRY_BASE_DELAY : Nat := 2

def BUY_PRICE_RATIO : ℚ := 95 / 100

def SELL_PRICE_RATIO : ℚ := 105 / 100

def CANCEL_ORDER_COUNT : Nat := 5

def ORDER_QUANTITIES : List ℚ := [4/1000, 5/1000, 6/1000, 7/1000]

/-! ### Reconnect backoff (`websocket_listener`, except-branch)

`retry_count = min(retry_count + 1, MAX_RETRY_COUNT)` and
`wait_time = min(RETRY_BASE_DELAY ** retry_count, 30)`. -/

/-- The update of `retry_count` performed in the `except` branch of
`websocket_listener`. -/
def nextRetryCount (c : Nat) : Nat := min (c + 1) MAX_RETRY_COUNT

/-- The sleep duration computed from the updated `retry_count`. -/
def waitTime (c : Nat) : Nat := min (RETRY_BASE_DELAY ^ c) 30

/-- Value of `retry_count` after `n` consecutive failures, starting from a
fresh (or just-reset) counter of `0`. -/
def retryCountAfter : Nat → Nat
  | 0 => 0
  | n + 1 => nextRetryCount (retryCountAfter n)

/-- The backoff delay slept after failure number `n+1` of a run of
consecutive failures (`n = 0` is the first failure). -/
def delayAt (n : Nat) : Nat := waitTime (retryCountAfter (n + 1))

/-! ### Reconnect state machine (`websocket_listener`, whole loop)

States follow the spec's `Connecting / Connected / Reconnecting` view of
the `while True` loop: `Connecting` is the `websockets.connect` call,
`Connected` is the `async for` message loop, `Reconnecting` is the
`except` branch sleeping before looping back.  Events: the connect call
returning (`connectOk`), the connect call raising (`connectFail`), the
message stream raising or ending while connected (`streamFail` — this
includes an uncaught per-message exception, see `process_message`), and
the backoff sleep elapsing (`delayDone`). -/

inductive ConnPhase
  | Connecting
  | Connected
  | Reconnecting
deriving DecidableEq

inductive WsEvent
  | connectOk
  | connectFail
  | streamFail
  | delayDone
deriving DecidableEq

structure ListenerState where
  phase : ConnPhase
  retryCount : Nat
deriving DecidableEq

/-- One transition of the reconnect state machine.  `retry_count = 0` is
executed in the source immediately after `websockets.connect` succeeds;
the `except` branch sets `retry_count = min(retry_count + 1, 6)`; the
sleep leaves the counter untouched and loops back to connecting.  Events
that cannot occur in a phase leave the state unchanged. -/
def wsStep (s : ListenerState) : WsEvent → ListenerState
  | .connectOk =>
      if s.phase = ConnPhase.Connecting then ⟨ConnPhase.Connected, 0⟩ else s
  | .connectFail =>
      if s.phase = ConnPhase.Connecting then
        ⟨ConnPhase.Reconnecting, nextRetryCount s.retryCount⟩
      else s
  | .streamFail =>
      if s.phase = ConnPhase.Connected then
        ⟨ConnPhase.Reconnecting, nextRetryCount s.retryCount⟩
      else s
  | .delayDone =>
      if s.phase = ConnPhase.Reconnecting then
        ⟨ConnPhase.Connecting, s.retryCount⟩
      else s

/-! ### Trader state and decision cycle (`Trader`) -/

inductive Side
  | BUY
  | SELL
deriving DecidableEq

/-- The mutable fields of `Trader` that the decision cycle touches.
`bid`/`ask` start as Python `None`. -/
structure TraderState where
  bid : Option ℚ
  ask : Option ℚ
  order_count : Nat
deriving DecidableEq

/-- `Trader.update_ticker`. -/
def update_ticker (s : TraderState) (b a : ℚ) : TraderState :=
  { s with bid := some b, ask := some a }

/-- `Trader.get_mid_price`: `if self.bid and self.ask:` — Python
truthiness, so `None` *and* `0.0` on either side yield `None`. -/
def get_mid_price (s : TraderState) : Option ℚ :=
  match s.bid, s.ask with
  | some b, some a => if b ≠ 0 ∧ a ≠ 0 then some ((b + a) / 2) else none
  | _, _ => none

/-- Standalone mid-price formula `(bid + ask) / 2`. -/
def mid_price (b a : ℚ) : ℚ := (b + a) / 2

/-- Models Python's one-decimal formatting `f"{x:.1f}"`: round to the
nearest multiple of `1/10` (exact ties — which the binary doubles of the
source never produce exactly — round up here). -/
def roundTenths (x : ℚ) : ℚ := (⌊x * 10 + 1 / 2⌋ : ℤ) / 10

/-- The limit price `trade_loop` formats into the order:
`mid * BUY_PRICE_RATIO` or `mid * SELL_PRICE_RATIO`, one decimal. -/
def limit_price (side : Side) (mid : ℚ) : ℚ :=
  match side with
  | .BUY => roundTenths (mid * BUY_PRICE_RATIO)
  | .SELL => roundTenths (mid * SELL_PRICE_RATIO)

/-- Outcome of one awaited REST call: Python either returns the
`(status, body)` pair or raises. -/
inductive RestResult
  | raises (e : String)
  | returns (status : Nat) (body : String)
deriving DecidableEq

/-- Observable actions of one decision cycle, in program order. -/
inductive TradeAction
  | reportWaiting
  | placeOrder (symbol : String) (side : Side) (qty price : ℚ)
  | reportOrderResult (status : Nat) (body : String)
  | sleepSeconds (n : Nat)
  | cancelAll (symbol : String)
  | reportCancelResult (status : Nat) (body : String)
deriving DecidableEq

/-- Network calls among the actions. -/
def isNetworkCall : TradeAction → Bool
  | .placeOrder _ _ _ _ => true
  | .cancelAll _ => true
  | _ => false

/-- The environment of one decision cycle: the two random draws and the
outcomes the network would give to the cycle's REST calls. -/
structure CycleEnv where
  side : Side
  qty : ℚ
  placeResult : RestResult
  cancelResult : RestResult
deriving DecidableEq

/-- Result of one decision cycle: either it completes with the new trader
state and its action trace, or an exception escapes it (there is no
`try/except` inside `trade_loop`'s body). -/
inductive CycleResult
  | raises (e : String)
  | ok (s : TraderState) (acts : List TradeAction)
deriving DecidableEq

/-- One iteration of the `while self.running` body of `Trader.trade_loop`
(after the random sleep): read the mid price, skip if falsy, place an
order, increment `order_count`, and if the counter reached
`CANCEL_ORDER_COUNT` sleep 2s, cancel all orders and reset the counter. -/
def trade_cycle (symbol : String) (s : TraderState) (env : CycleEnv) :
    CycleResult :=
  match get_mid_price s with
  | none => .ok s [.reportWaiting]
  | some mid =>
    if mid = 0 then .ok s [.reportWaiting]  -- `if not mid_price:` is a truthiness test
    else
      let price := limit_price env.side mid
      match env.placeResult with
      | .raises e => .raises e
      | .returns status body =>
        let s1 : TraderState := { s with order_count := s.order_count + 1 }
        let acts := [TradeAction.placeOrder symbol env.side env.qty price,
                     TradeAction.reportOrderResult status body]
        if CANCEL_ORDER_COUNT ≤ s1.order_count then
          match env.cancelResult with
          | .raises e => .raises e
          | .returns st2 b2 =>
            .ok { s1 with order_count := 0 }
              (acts ++ [TradeAction.sleepSeconds 2, TradeAction.cancelAll symbol,
                        TradeAction.reportCancelResult st2 b2])
        else .ok s1 acts

/-- Result of running the loop over a finite schedule of cycles. -/
inductive RunResult
  | raises (e : String) (acts : List TradeAction)
  | normal (s : TraderState) (acts : List TradeAction)
deriving DecidableEq

/-- Prepend a completed cycle's actions to a loop result. -/
def appendRun (acts : List TradeAction) : RunResult → RunResult
  | .raises e acts2 => .raises e (acts ++ acts2)
  | .normal s acts2 => .normal s (acts ++ acts2)

/-- `Trader.trade_loop` over a finite schedule of decision cycles: an
exception escaping one cycle terminates the loop (no later cycle runs). -/
def trade_loop_run (symbol : String) (s : TraderState) :
    List CycleEnv → RunResult
  | [] => .normal s []
  | env :: rest =>
    match trade_cycle symbol s env with
    | .raises e => .raises e []
    | .ok s2 acts => appendRun acts (trade_loop_run symbol s2 rest)

/-! ### Feed message processing (`websocket_listener`, inner `async for`)

The body parses `message` with `json.loads`, unwraps an optional `data`
envelope with `data.get("data", data)`, converts `payload["b"]` and
`payload["a"]` with `float(...)`, calls `trader.update_ticker`, then
formats `payload['s']` into a log line.  The inner
`except (KeyError, ValueError)` catches exactly `KeyError` and
`ValueError` (which includes `json.JSONDecodeError`); a `TypeError` or
`AttributeError` escapes to the outer `except` and tears the connection
down. -/

/-- JSON values as `json.loads` produces them. -/
inductive Json
  | null
  | bool (b : Bool)
  | str (s : String)
  | num (q : ℚ)
  | arr (items : List Json)
  | obj (entries : List (String × Json))

/-- The Python exceptions the message-processing path can raise. -/
inductive PyErr
  | keyError
  | valueError
  | typeError
  | attributeError
deriving DecidableEq

/-- Which of those the inner `except (KeyError, ValueError)` catches. -/
def isCaught : PyErr → Bool
  | .keyError => true
  | .valueError => true
  | .typeError => false
  | .attributeError => false

/-- `d.get(k, default)`: only `dict`s have `.get`; any other object
raises `AttributeError`. -/
def dictGet (j : Json) (k : String) (default : Json) : Except PyErr Json :=
  match j with
  | .obj fields => .ok ((fields.lookup k).getD default)
  | _ => .error .attributeError

/-- `payload[k]` subscription: a `dict` raises `KeyError` when the key is
absent; every other JSON-decoded value raises `TypeError` on a string
subscript. -/
def jsonGetItem (j : Json) (k : String) : Except PyErr Json :=
  match j with
  | .obj fields =>
    match fields.lookup k with
    | some v => .ok v
    | none => .error .keyError
  | _ => .error .typeError

/-- Digits of a decimal literal as a natural number (`[] ↦ 0`). -/
def natOfDigits (cs : List Char) : Nat :=
  cs.foldl (fun a c => a * 10 + (c.toNat - 48)) 0

/-- Unsigned part of a Python float literal: `digits`, `digits.`,
`digits.digits` or `.digits`. -/
def parseUnsigned (cs : List Char) : Option ℚ :=
  let intPart := cs.takeWhile Char.isDigit
  let rest := cs.dropWhile Char.isDigit
  match rest with
  | [] => if intPart.isEmpty then none else some (natOfDigits intPart)
  | '.' :: frac =>
    if frac.all Char.isDigit ∧ ¬(intPart.isEmpty ∧ frac.isEmpty) then
      some ((natOfDigits intPart : ℚ) +
        (natOfDigits frac : ℚ) / (10 : ℚ) ^ frac.length)
    else none
  | _ => none

/-- `float(s)` on a string: the decimal-literal subset of Python's
accepted forms (optional sign, digits, optional fractional part).  The
exotic forms (`inf`, exponents, underscores, surrounding whitespace) do
not occur in this program's feed and are modelled as rejected. -/
def pyFloatParse (s : String) : Option ℚ :=
  match s.data with
  | '+' :: cs => parseUnsigned cs
  | '-' :: cs => (parseUnsigned cs).map Neg.neg
  | cs => parseUnsigned cs

/-- `float(x)` on a JSON-decoded value: numbers and booleans convert,
strings parse or raise `ValueError`, everything else raises
`TypeError`. -/
def pyFloat : Json → Except PyErr ℚ
  | .num q => .ok q
  | .bool b => .ok (if b then 1 else 0)
  | .str s =>
    match pyFloatParse s with
    | some q => .ok q
    | none => .error .valueError
  | .null => .error .typeError
  | .arr _ => .error .typeError
  | .obj _ => .error .typeError

/-- An incoming WebSocket frame after `json.loads`: either the text was
not valid JSON (`json.JSONDecodeError`, a `ValueError`) or a JSON
value. -/
inductive RawMsg
  | invalidJson
  | val (j : Json)

/-- What handling one message does to the connection. -/
inductive FeedOutcome
  | updated (bid ask : ℚ)              -- ticker updated, log line printed
  | updatedThenDropped (bid ask : ℚ)   -- ticker updated, then a caught error (missing "s")
  | dropped                            -- caught KeyError/ValueError: message dropped, connection kept
  | teardown                           -- uncaught exception: escapes to the outer except
deriving DecidableEq

/-- One iteration of the `async for message in websocket` body. -/
def process_message (m : RawMsg) : FeedOutcome :=
  match m with
  | .invalidJson => .dropped
  | .val data =>
    match dictGet data "data" data with
    | .error _ => .teardown   -- AttributeError is not caught
    | .ok payload =>
    match jsonGetItem payload "b" with
    | .error e => if isCaught e then .dropped else .teardown
    | .ok bv =>
    match pyFloat bv with
    | .error e => if isCaught e then .dropped else .teardown
    | .ok bid =>
    match jsonGetItem payload "a" with
    | .error e => if isCaught e then .dropped else .teardown
    | .ok av =>
    match pyFloat av with
    | .error e => if isCaught e then .dropped else .teardown
    | .ok ask =>
    -- `trader.update_ticker(bid, ask)` runs before `payload['s']` is read
    match jsonGetItem payload "s" with
    | .error e => if isCaught e then .updatedThenDropped bid ask else .teardown
    | .ok _ => .updated bid ask

/-- Consume a finite prefix of the stream, updating the trader's ticker,
until an uncaught exception tears the connection down.  Returns the
trader state and the unconsumed suffix (beginning with the fatal message
if a teardown happened, empty otherwise). -/
def consume_stream (s : TraderState) : List RawMsg → TraderState × List RawMsg
  | [] => (s, [])
  | m :: rest =>
    match process_message m with
    | .updated b a => consume_stream (update_ticker s b a) rest
    | .updatedThenDropped b a => consume_stream (update_ticker s b a) rest
    | .dropped => consume_stream s rest
    | .teardown => (s, m :: rest)

/-! ### Request signing (`sign_query`, `place_order`, `cancel_all_orders`)

`sign_query` is `hmac.new(secret.encode(), urllib.parse.urlencode(params)
.encode(), hashlib.sha256).hexdigest()`.  Bytes are modelled as naturals
below 256; 32-bit words as naturals reduced mod `2^32`. -/

/-- UTF-8 encoding of one character (`str.encode()`). -/
def utf8Char (c : Char) : List Nat :=
  let n := c.toNat
  if n < 128 then [n]
  else if n < 2048 then
    [192 ||| (n >>> 6), 128 ||| (n &&& 63)]
  else if n < 65536 then
    [224 ||| (n >>> 12), 128 ||| ((n >>> 6) &&& 63), 128 ||| (n &&& 63)]
  else
    [240 ||| (n >>> 18), 128 ||| ((n >>> 12) &&& 63),
     128 ||| ((n >>> 6) &&& 63), 128 ||| (n &&& 63)]

/-- UTF-8 encoding of a string (`str.encode()`). -/
def utf8Bytes (s : String) : List Nat :=
  (s.data.map utf8Char).flatten

/-- The characters `urllib.parse.quote_plus` never escapes:
ASCII letters, digits and `_.-~`. -/
def urlSafeChar (c : Char) : Bool :=
  c.isAlphanum || c = '_' || c = '.' || c = '-' || c = '~'

/-- Upper-case hex digit of a value below 16. -/
def hexDigitUpper (n : Nat) : Char :=
  if n < 10 then Char.ofNat (48 + n) else Char.ofNat (55 + n)

/-- `%XX` escape of one byte. -/
def percentEncodeByte (b : Nat) : List Char :=
  ['%', hexDigitUpper (b / 16), hexDigitUpper (b % 16)]

/-- `urllib.parse.quote_plus`: safe characters pass through, a space
becomes `+`, every other character is UTF-8 encoded and percent-escaped
byte by byte. -/
def quote_plus (s : String) : String :=
  String.mk ((s.data.map fun c =>
    if urlSafeChar c then [c]
    else if c = ' ' then ['+']
    else ((utf8Char c).map percentEncodeByte).flatten).flatten)

/-- `urllib.parse.urlencode` on an insertion-ordered mapping:
`quote_plus`-escaped `key=value` pairs joined by `&`, in order. -/
def urlencode (params : List (String × String)) : String :=
  String.intercalate "&" (params.map fun kv =>
    quote_plus kv.1 ++ "=" ++ quote_plus kv.2)

/-! #### SHA-256 over byte lists -/

/-- Reduce to a 32-bit word. -/
def wrap32 (n : Nat) : Nat := n % 4294967296

/-- Right rotation of a 32-bit word. -/
def rotr32 (n x : Nat) : Nat :=
  (x >>> n) ||| ((x % 2 ^ n) <<< (32 - n))

def smallSigma0 (x : Nat) : Nat := rotr32 7 x ^^^ rotr32 18 x ^^^ (x >>> 3)

def smallSigma1 (x : Nat) : Nat := rotr32 17 x ^^^ rotr32 19 x ^^^ (x >>> 10)

def bigSigma0 (x : Nat) : Nat := rotr32 2 x ^^^ rotr32 13 x ^^^ rotr32 22 x

def bigSigma1 (x : Nat) : Nat := rotr32 6 x ^^^ rotr32 11 x ^^^ rotr32 25 x

/-- The 64 SHA-256 round constants. -/
def shaK : List Nat :=
  [1116352408, 1899447441, 3049323471, 3921009573,
   961987163, 1508970993, 2453635748, 2870763221,
   3624381080, 310598401, 607225278, 1426881987,
   1925078388, 2162078206, 2614888103, 3248222580,
   3835390401, 4022224774, 264347078, 604807628,
   770255983, 1249150122, 1555081692, 1996064986,
   2554220882, 2821834349, 2952996808, 3210313671,
   3336571891, 3584528711, 113926993, 338241895,
   666307205, 773529912, 1294757372, 1396182291,
   1695183700, 1986661051, 2177026350, 2456956037,
   2730485921, 2820302411, 3259730800, 3345764771,
   3516065817, 3600352804, 4094571909, 275423344,
   430227734, 506948616, 659060556, 883997877,
   958139571, 1322822218, 1537002063, 1747873779,
   1955562222, 2024104815, 2227730452, 2361852424,
   2428436474, 2756734187, 3204031479, 3329325298]

/-- The initial SHA-256 hash state. -/
def shaH0 : List Nat :=
  [1779033703, 3144134277, 1013904242, 2773480762,
   1359893119, 2600822924, 528734635, 1541459225]

/-- Big-endian bytes of a 64-bit length field. -/
def be64 (n : Nat) : List Nat :=
  [(n >>> 56) % 256, (n >>> 48) % 256, (n >>> 40) % 256, (n >>> 32) % 256,
   (n >>> 24) % 256, (n >>> 16) % 256, (n >>> 8) % 256, n % 256]

/-- Big-endian bytes of a 32-bit word. -/
def be32 (n : Nat) : List Nat :=
  [(n >>> 24) % 256, (n >>> 16) % 256, (n >>> 8) % 256, n % 256]

/-- SHA-256 padding: `0x80`, zeros to 56 mod 64, 8-byte bit length. -/
def padMessage (msg : List Nat) : List Nat :=
  let L := msg.length
  msg ++ [128] ++ List.replicate ((119 - L % 64) % 64) 0 ++ be64 (8 * L)

/-- Big-endian 32-bit words of a byte list whose length is a multiple
of 4. -/
def bytesToWords : List Nat → List Nat
  | a :: b :: c :: d :: rest =>
    (((a * 256 + b) * 256 + c) * 256 + d) :: bytesToWords rest
  | _ => []

/-- Split a word list into 16-word blocks (fuel-driven so that the
recursion is structural; `fuel = ws.length` always suffices). -/
def wordBlocksAux : Nat → List Nat → List (List Nat)
  | 0, _ => []
  | _, [] => []
  | fuel + 1, w :: ws =>
    (w :: ws).take 16 :: wordBlocksAux fuel ((w :: ws).drop 16)

/-- Split a word list into 16-word blocks. -/
def wordBlocks (ws : List Nat) : List (List Nat) :=
  wordBlocksAux ws.length ws

/-- Extend 16 schedule words by one (`W[t]` from `W[t-2]`, `W[t-7]`,
`W[t-15]`, `W[t-16]`). -/
def scheduleStep (w : List Nat) : List Nat :=
  let t := w.length
  w ++ [wrap32 (smallSigma1 (w.getD (t - 2) 0) + w.getD (t - 7) 0 +
                smallSigma0 (w.getD (t - 15) 0) + w.getD (t - 16) 0)]

/-- The full 64-word message schedule of one block. -/
def schedule (w16 : List Nat) : List Nat :=
  (List.range 48).foldl (fun w _ => scheduleStep w) w16

/-- One SHA-256 round on the 8-word working state, given `(K[t], W[t])`. -/
def compressStep (st : List Nat) (kw : Nat × Nat) : List Nat :=
  match st with
  | [a, b, c, d, e, f, g, h] =>
    let ch := (e &&& f) ^^^ ((e ^^^ 4294967295) &&& g)
    let maj := ((a &&& b) ^^^ (b &&& c)) ^^^ (a &&& c)
    let t1 := wrap32 (h + bigSigma1 e + ch + kw.1 + kw.2)
    let t2 := wrap32 (bigSigma0 a + maj)
    [wrap32 (t1 + t2), a, b, c, wrap32 (d + t1), e, f, g]
  | other => other

/-- Compress one 16-word block into the running hash state. -/
def processBlock (h : List Nat) (w16 : List Nat) : List Nat :=
  let st := (shaK.zip (schedule w16)).foldl compressStep h
  (h.zip st).map fun p => wrap32 (p.1 + p.2)

/-- SHA-256 digest (32 bytes) of a byte list. -/
def sha256 (msg : List Nat) : List Nat :=
  let blocks := wordBlocks (bytesToWords (padMessage msg))
  ((blocks.foldl processBlock shaH0).map be32).flatten

/-- Lower-case hex digit of a value below 16. -/
def hexDigitLower (n : Nat) : Char :=
  if n < 10 then Char.ofNat (48 + n) else Char.ofNat (87 + n)

/-- Lower-case hex string of a byte list (`.hexdigest()`). -/
def hexOfBytes (bs : List Nat) : String :=
  String.mk ((bs.map fun b => [hexDigitLower (b / 16), hexDigitLower (b % 16)]).flatten)

/-- HMAC-SHA256 (`hmac.new(key, msg, hashlib.sha256)`), block size 64. -/
def hmacSha256 (key msg : List Nat) : List Nat :=
  let k0 := if 64 < key.length then sha256 key else key
  let kp := k0 ++ List.replicate (64 - k0.length) 0
  let ipadKey := kp.map fun b => b ^^^ 54
  let opadKey := kp.map fun b => b ^^^ 92
  sha256 (opadKey ++ sha256 (ipadKey ++ msg))

/-- `hmac.new(key, msg, hashlib.sha256).hexdigest()`. -/
def hmacSha256Hex (key msg : List Nat) : String :=
  hexOfBytes (hmacSha256 key msg)

/-- `sign_query(params, secret)`: HMAC-SHA256 hex digest of the
url-encoded parameter string, keyed by the secret. -/
def sign_query (params : List (String × String)) (secret : String) : String :=
  hmacSha256Hex (utf8Bytes secret) (utf8Bytes (urlencode params))

/-- The spec's canonicalization, written from its words: "key ordering as
provided — insertion order — URL-encoded key=value pairs joined by
`&`" (for comparison with the source's `urlencode`). -/
def specCanonicalQuery (params : List (String × String)) : String :=
  String.intercalate "&" (params.map fun kv =>
    quote_plus kv.1 ++ "=" ++ quote_plus kv.2)

/-- The signed-then-extended parameter list `BinanceClient.place_order`
sends: the seven order fields in insertion order, then the signature of
exactly those seven, appended after signing. -/
def place_order_params (secret symbol side qty price : String) (ts : Nat) :
    List (String × String) :=
  let params := [("symbol", symbol), ("side", side), ("type", "LIMIT"),
                 ("timeInForce", "GTC"), ("quantity", qty), ("price", price),
                 ("timestamp", toString ts)]
  params ++ [("signature", sign_query params secret)]

/-- The parameter list `BinanceClient.cancel_all_orders` sends. -/
def cancel_all_orders_params (secret symbol : String) (ts : Nat) :
    List (String × String) :=
  let params := [("symbol", symbol), ("timestamp", toString ts)]
  params ++ [("signature", sign_query params secret)]

/-! ## Theorems -/

set_option maxRecDepth 16000

/-- Sanity check of the hash embedding: the FIPS 180-2 test vector. -/
theorem sha256_matches_fips_vector :
    hexOfBytes (sha256 (utf8Bytes "abc")) =
      "ba7816bf8f01cfea414140de5dae2223b00361a396177a9cb410ff61f20015ad" := by
  decide

/-- Sanity check of the HMAC embedding against
`hmac.new(b"key", b"msg", hashlib.sha256).hexdigest()`. -/
theorem hmac_matches_vector :
    hmacSha256Hex (utf8Bytes "key") (utf8Bytes "msg") =
      "2d93cbc1be167bcb1637a4a23cbff01a7878f0c50ee833954ea5221bb1b8c628" := by
  decide

/-- `retry_count` after `n` consecutive failures is `min n 6`. -/
theorem retryCountAfter_eq (n : Nat) : retryCountAfter n = min n 6 := by
  induction n with
  | zero => rfl
  | succ n ih =>
    simp only [retryCountAfter, nextRetryCount, MAX_RETRY_COUNT, ih]
    omega

/-- Closed form of the delay slept after the `n+1`-st consecutive
failure. -/
theorem delayAt_eq (n : Nat) : delayAt n = min (2 ^ min (n + 1) 6) 30 := by
  simp only [delayAt, waitTime, RETRY_BASE_DELAY, retryCountAfter_eq]

/-- C1.  Each connection failure updates the attempt counter as
`attempt = min(attempt + 1, 6)` and sleeps `min(2 ^ attempt, 30)`
seconds, so over a run of consecutive failures the delays are
non-decreasing, never exceed the 30-second cap, and form the sequence
2, 4, 8, 16, 30, 30, …. -/
theorem backoff_sequence_capped_nondecreasing :
    (∀ c, nextRetryCount c = min (c + 1) 6) ∧
    (∀ c, waitTime c = min (2 ^ c) 30) ∧
    (∀ n, retryCountAfter (n + 1) = min (retryCountAfter n + 1) 6) ∧
    (∀ n, delayAt n ≤ delayAt (n + 1)) ∧
    (∀ n, delayAt n ≤ 30) ∧
    delayAt 0 = 2 ∧ delayAt 1 = 4 ∧ delayAt 2 = 8 ∧ delayAt 3 = 16 ∧
    (∀ n, delayAt (n + 4) = 30) := by
  refine ⟨fun c => rfl, fun c => rfl, fun n => rfl, ?_, ?_, by decide, by decide,
    by decide, by decide, ?_⟩
  · intro n
    rw [delayAt_eq, delayAt_eq]
    refine min_le_min ?_ le_rfl
    exact Nat.pow_le_pow_right (by norm_num) (by omega)
  · intro n
    rw [delayAt_eq]
    exact Nat.min_le_right _ _
  · intro n
    match n with
    | 0 => decide
    | m + 1 =>
      have h6 : min (m + 1 + 4 + 1) 6 = 6 := by omega
      rw [delayAt_eq, h6]
      decide

/-- C4.  The retry counter is set to `0` only by the successful
transition into `Connected`; a transition into `Connecting` (starting an
attempt) never changes it; and each failure leaves it at its incremented
value `min(old + 1, 6)`. -/
theorem retry_counter_reset_only_on_connected (s : ListenerState) (e : WsEvent) :
    ((wsStep s e).retryCount = 0 →
      s.retryCount = 0 ∨ (wsStep s e).phase = ConnPhase.Connected) ∧
    ((wsStep s e).phase = ConnPhase.Connecting →
      (wsStep s e).retryCount = s.retryCount) ∧
    (s.phase = ConnPhase.Connecting →
      wsStep s WsEvent.connectFail =
        ⟨ConnPhase.Reconnecting, min (s.retryCount + 1) 6⟩) ∧
    (s.phase = ConnPhase.Connected →
      wsStep s WsEvent.streamFail =
        ⟨ConnPhase.Reconnecting, min (s.retryCount + 1) 6⟩) ∧
    (s.phase = ConnPhase.Connecting →
      wsStep s WsEvent.connectOk = ⟨ConnPhase.Connected, 0⟩) := by
  obtain ⟨p, c⟩ := s
  cases p <;> cases e <;>
    simp [wsStep, nextRetryCount, MAX_RETRY_COUNT]

/-- Witness for C4 at concrete states: connecting with a nonzero counter,
a successful connect resets it (and the phase is `Connected`); a failed
connect increments it to `min 4 6`. -/
theorem retry_counter_reset_only_on_connected_witness :
    ((3 : Nat) = 0 ∨
      (wsStep ⟨ConnPhase.Connecting, 3⟩ WsEvent.connectOk).phase =
        ConnPhase.Connected) ∧
    wsStep ⟨ConnPhase.Connecting, 3⟩ WsEvent.connectFail =
      ⟨ConnPhase.Reconnecting, min (3 + 1) 6⟩ :=
  ⟨(retry_counter_reset_only_on_connected ⟨ConnPhase.Connecting, 3⟩
      WsEvent.connectOk).1 (by decide),
   (retry_counter_reset_only_on_connected ⟨ConnPhase.Connecting, 3⟩
      WsEvent.connectFail).2.2.1 (by decide)⟩

/-- C2 amended.  Whenever the `placeOrder` call returns, `order_count` is
incremented by one whatever the HTTP `status` was; when the counter
reaches `CANCEL_ORDER_COUNT = 5` the cycle sleeps 2 seconds, invokes the
cancel-all call and — provided that call returns — resets the counter to
zero whatever status it returns.  (If the cancel call raises instead, the
reset never executes and the exception terminates the loop:
`cancel_exception_skips_counter_reset`.) -/
theorem order_counter_increment_and_cancel_reset (symbol : String)
    (s : TraderState) (env : CycleEnv) (mid : ℚ) (status : Nat) (body : String)
    (hmid : get_mid_price s = some mid) (hnz : mid ≠ 0)
    (hp : env.placeResult = RestResult.returns status body) :
    (s.order_count + 1 < CANCEL_ORDER_COUNT →
      trade_cycle symbol s env =
        CycleResult.ok { s with order_count := s.order_count + 1 }
          [TradeAction.placeOrder symbol env.side env.qty (limit_price env.side mid),
           TradeAction.reportOrderResult status body]) ∧
    (CANCEL_ORDER_COUNT ≤ s.order_count + 1 →
      ∀ st2 b2, env.cancelResult = RestResult.returns st2 b2 →
        trade_cycle symbol s env =
          CycleResult.ok { s with order_count := 0 }
            [TradeAction.placeOrder symbol env.side env.qty (limit_price env.side mid),
             TradeAction.reportOrderResult status body,
             TradeAction.sleepSeconds 2, TradeAction.cancelAll symbol,
             TradeAction.reportCancelResult st2 b2]) := by
  constructor
  · intro hlt
    simp only [trade_cycle, hmid, hp, if_neg hnz]
    rw [if_neg (by simpa using Nat.not_le.mpr hlt)]
  · intro hge st2 b2 hc
    simp only [trade_cycle, hmid, hp, hc, if_neg hnz]
    rw [if_pos (by simpa using hge)]
    rfl

def c2s0 : TraderState := ⟨some 100, some 102, 0⟩

def c2s4 : TraderState := ⟨some 100, some 102, 4⟩

def c2env : CycleEnv :=
  ⟨Side.BUY, 4/1000, RestResult.returns 400 "bad", RestResult.returns 500 "err"⟩

def c2envCancelRaises : CycleEnv :=
  ⟨Side.BUY, 4/1000, RestResult.returns 200 "ok", RestResult.raises "ClientOSError"⟩

/-- C2 counterexample.  "Resets OrderCounter to zero regardless of the
cancel call's outcome" fails for the raising outcome: with the counter at
4, a placement that returns and a cancel-all call that raises, the
statement `self.order_count = 0` (Q1.py line 218) is never reached — the
exception escapes the cycle and terminates the loop with the counter
never having been reset. -/
theorem cancel_exception_skips_counter_reset :
    trade_cycle "BTCUSDT" c2s4 c2envCancelRaises =
      CycleResult.raises "ClientOSError" ∧
    trade_loop_run "BTCUSDT" c2s4 [c2envCancelRaises] =
      RunResult.raises "ClientOSError" [] := by
  have hm : get_mid_price c2s4 = some 101 := by
    norm_num [get_mid_price, c2s4]
  have hcy : trade_cycle "BTCUSDT" c2s4 c2envCancelRaises =
      CycleResult.raises "ClientOSError" := by
    simp only [trade_cycle, hm, c2envCancelRaises]
    norm_num [c2s4, CANCEL_ORDER_COUNT]
  exact ⟨hcy, by simp only [trade_loop_run, hcy]⟩

/-- Witness for C2: with failing HTTP statuses (400 on placement, 500 on
cancel) the counter still increments from 0 to 1, and still resets from 4
to 0 after the sweep. -/
theorem order_counter_increment_and_cancel_reset_witness :
    trade_cycle "BTCUSDT" c2s0 c2env =
      CycleResult.ok { c2s0 with order_count := 0 + 1 }
        [TradeAction.placeOrder "BTCUSDT" c2env.side c2env.qty
           (limit_price c2env.side 101),
         TradeAction.reportOrderResult 400 "bad"] ∧
    trade_cycle "BTCUSDT" c2s4 c2env =
      CycleResult.ok { c2s4 with order_count := 0 }
        [TradeAction.placeOrder "BTCUSDT" c2env.side c2env.qty
           (limit_price c2env.side 101),
         TradeAction.reportOrderResult 400 "bad",
         TradeAction.sleepSeconds 2, TradeAction.cancelAll "BTCUSDT",
         TradeAction.reportCancelResult 500 "err"] :=
  ⟨(order_counter_increment_and_cancel_reset "BTCUSDT" c2s0 c2env 101 400 "bad"
      (by norm_num [get_mid_price, c2s0]) (by norm_num) rfl).1 (by decide),
   (order_counter_increment_and_cancel_reset "BTCUSDT" c2s4 c2env 101 400 "bad"
      (by norm_num [get_mid_price, c2s4]) (by norm_num) rfl).2 (by decide) 500 "err" rfl⟩

def c3state : TraderState := ⟨some 100, some 102, 0⟩

def c3envFail : CycleEnv :=
  ⟨Side.BUY, 4/1000, RestResult.raises "ClientConnectorError",
   RestResult.returns 200 "ok"⟩

def c3envOk : CycleEnv :=
  ⟨Side.SELL, 5/1000, RestResult.returns 200 "ok", RestResult.returns 200 "ok"⟩

/-- C3 counterexample.  `trade_loop` has no `try/except` around the REST
calls: with a quote available, a `place_order` call that raises makes the
exception escape the cycle and terminate the loop — the second scheduled
cycle never executes (the completed-action trace is empty). -/
theorem trade_loop_killed_by_rest_exception :
    trade_cycle "BTCUSDT" c3state c3envFail =
      CycleResult.raises "ClientConnectorError" ∧
    trade_loop_run "BTCUSDT" c3state [c3envFail, c3envOk] =
      RunResult.raises "ClientConnectorError" [] := by
  have hm : get_mid_price c3state = some 101 := by
    norm_num [get_mid_price, c3state]
  have hcy : trade_cycle "BTCUSDT" c3state c3envFail =
      CycleResult.raises "ClientConnectorError" := by
    simp only [trade_cycle, hm, c3envFail]
    norm_num
  exact ⟨hcy, by simp only [trade_loop_run, hcy]⟩

/-- C3 amended.  A REST call that *returns* — with any HTTP status,
success or failure — never terminates the loop: the cycle completes and
the loop proceeds to the remaining scheduled cycles.  (Only a *raised*
exception terminates it, per `trade_loop_killed_by_rest_exception`.) -/
theorem returned_failure_status_does_not_stop_loop (symbol : String)
    (s : TraderState) (env : CycleEnv) (rest : List CycleEnv)
    (hp : ∃ st b, env.placeResult = RestResult.returns st b)
    (hc : ∃ st b, env.cancelResult = RestResult.returns st b) :
    ∃ s2 acts, trade_cycle symbol s env = CycleResult.ok s2 acts ∧
      trade_loop_run symbol s (env :: rest) =
        appendRun acts (trade_loop_run symbol s2 rest) := by
  obtain ⟨st, b, hp⟩ := hp
  obtain ⟨st2, b2, hc⟩ := hc
  have key : ∃ s2 acts, trade_cycle symbol s env = CycleResult.ok s2 acts := by
    simp only [trade_cycle, hp, hc]
    split
    · exact ⟨s, _, rfl⟩
    · split
      · exact ⟨s, _, rfl⟩
      · split
        · exact ⟨_, _, rfl⟩
        · exact ⟨_, _, rfl⟩
  obtain ⟨s2, acts, hcy⟩ := key
  exact ⟨s2, acts, hcy, by simp only [trade_loop_run, hcy]⟩

/-- Witness for the amended C3: a cycle whose placement returns HTTP 400
completes, and the loop goes on to run the remaining schedule. -/
theorem returned_failure_status_does_not_stop_loop_witness :
    ∃ s2 acts,
      trade_cycle "BTCUSDT" c3state
        ⟨Side.BUY, 4/1000, RestResult.returns 400 "rejected",
         RestResult.returns 200 "ok"⟩ = CycleResult.ok s2 acts ∧
      trade_loop_run "BTCUSDT" c3state
        (⟨Side.BUY, 4/1000, RestResult.returns 400 "rejected",
          RestResult.returns 200 "ok"⟩ :: [c3envOk]) =
        appendRun acts (trade_loop_run "BTCUSDT" s2 [c3envOk]) :=
  returned_failure_status_does_not_stop_loop "BTCUSDT" c3state _ [c3envOk]
    ⟨400, "rejected", rfl⟩ ⟨200, "ok", rfl⟩

/-- C6.  With no quote ever received (`bid = ask = None`), a decision
cycle returns the state unchanged (in particular `order_count`), its only
action is the "waiting for quote" report, and none of its actions is a
network call. -/
theorem no_quote_cycle_is_pure_skip (symbol : String) (s : TraderState)
    (env : CycleEnv) (h : s.bid = none ∧ s.ask = none) :
    trade_cycle symbol s env = CycleResult.ok s [TradeAction.reportWaiting] ∧
    get_mid_price s = none ∧
    ([TradeAction.reportWaiting].all fun a => !isNetworkCall a) = true := by
  obtain ⟨hb, ha⟩ := h
  have hm : get_mid_price s = none := by
    simp [get_mid_price, hb]
  exact ⟨by simp only [trade_cycle, hm], hm, by decide⟩

/-- Witness for C6 at the start state. -/
theorem no_quote_cycle_is_pure_skip_witness :
    trade_cycle "BTCUSDT" ⟨none, none, 0⟩ c2env =
      CycleResult.ok ⟨none, none, 0⟩ [TradeAction.reportWaiting] ∧
    get_mid_price ⟨none, none, 0⟩ = none ∧
    ([TradeAction.reportWaiting].all fun a => !isNetworkCall a) = true :=
  no_quote_cycle_is_pure_skip "BTCUSDT" ⟨none, none, 0⟩ c2env ⟨rfl, rfl⟩

/-- C9.  A received quote with a zero bid or ask side is falsy in
`if self.bid and self.ask`, so `get_mid_price` returns `None` and the
cycle skips exactly like the no-quote case: no order, counter
unchanged. -/
theorem zero_price_side_skips_like_no_quote (symbol : String)
    (s : TraderState) (env : CycleEnv)
    (h : s.bid = some 0 ∨ s.ask = some 0) :
    get_mid_price s = none ∧
    trade_cycle symbol s env = CycleResult.ok s [TradeAction.reportWaiting] := by
  have hm : get_mid_price s = none := by
    rcases h with hb | ha
    · cases hask : s.ask <;> simp [get_mid_price, hb, hask]
    · cases hbid : s.bid <;> simp [get_mid_price, hbid, ha]
  exact ⟨hm, by simp only [trade_cycle, hm]⟩

/-- Witness for C9: a quote was actually received (`bid = 0.0`,
`ask = 101.0`) yet the cycle still skips. -/
theorem zero_price_side_skips_like_no_quote_witness :
    get_mid_price ⟨some 0, some 101, 3⟩ = none ∧
    trade_cycle "BTCUSDT" ⟨some 0, some 101, 3⟩ c2env =
      CycleResult.ok ⟨some 0, some 101, 3⟩ [TradeAction.reportWaiting] :=
  zero_price_side_skips_like_no_quote "BTCUSDT" ⟨some 0, some 101, 3⟩ c2env
    (Or.inl rfl)

/-- C7 counterexample.  The inner handler catches only `KeyError` and
`ValueError`.  A feed message whose JSON top level is not an object
(here `[]`) raises `AttributeError` at `data.get("data", data)`, and a
message whose price field is JSON `null` raises `TypeError` at
`float(payload["b"])`; both escape to the outer `except`, so the
connection *is* torn down, and the stream stops at that message. -/
theorem malformed_message_can_tear_down_connection :
    process_message (RawMsg.val (Json.arr [])) = FeedOutcome.teardown ∧
    process_message (RawMsg.val (Json.obj
      [("b", Json.null), ("a", Json.str "1.0"), ("s", Json.str "BTCUSDT")])) =
      FeedOutcome.teardown ∧
    consume_stream ⟨none, none, 0⟩ [RawMsg.val (Json.arr [])] =
      (⟨none, none, 0⟩, [RawMsg.val (Json.arr [])]) :=
  ⟨rfl, rfl, rfl⟩

/-- C7 amended.  A message that raises `KeyError` or `ValueError` —
invalid JSON text, a flat object missing the bid field, or a bid field
whose string does not parse as a float — is logged and dropped, exactly
that one message, and the stream keeps being consumed; but messages
raising `TypeError`/`AttributeError` tear the connection down (see the
counterexample). -/
theorem caught_malformed_message_dropped_stream_continues
    (fs : List (String × Json)) (s : TraderState) (rest : List RawMsg)
    (hd : fs.lookup "data" = none) :
    process_message RawMsg.invalidJson = FeedOutcome.dropped ∧
    (fs.lookup "b" = none →
      process_message (RawMsg.val (Json.obj fs)) = FeedOutcome.dropped) ∧
    (∀ sv, fs.lookup "b" = some (Json.str sv) → pyFloatParse sv = none →
      process_message (RawMsg.val (Json.obj fs)) = FeedOutcome.dropped) ∧
    (∀ m, process_message m = FeedOutcome.dropped →
      consume_stream s (m :: rest) = consume_stream s rest) := by
  refine ⟨rfl, ?_, ?_, ?_⟩
  · intro hb
    simp [process_message, dictGet, hd, jsonGetItem, hb, isCaught]
  · intro sv hb hpf
    simp [process_message, dictGet, hd, jsonGetItem, hb, pyFloat, hpf, isCaught]
  · intro m hm
    simp [consume_stream, hm]

def c7fields : List (String × Json) :=
  [("b", Json.str "notanumber"), ("a", Json.str "1.0"), ("s", Json.str "BTCUSDT")]

/-- Witness for the amended C7: invalid JSON text is dropped, and a
message whose bid string does not parse is dropped, connection kept. -/
theorem caught_malformed_message_dropped_stream_continues_witness :
    process_message RawMsg.invalidJson = FeedOutcome.dropped ∧
    process_message (RawMsg.val (Json.obj c7fields)) = FeedOutcome.dropped ∧
    consume_stream ⟨none, none, 0⟩ [RawMsg.val (Json.obj c7fields)] =
      consume_stream ⟨none, none, 0⟩ [] :=
  ⟨(caught_malformed_message_dropped_stream_continues c7fields ⟨none, none, 0⟩
      [] rfl).1,
   (caught_malformed_message_dropped_stream_continues c7fields ⟨none, none, 0⟩
      [] rfl).2.2.1 "notanumber" rfl rfl,
   (caught_malformed_message_dropped_stream_continues c7fields ⟨none, none, 0⟩
      [] rfl).2.2.2 (RawMsg.val (Json.obj c7fields))
     ((caught_malformed_message_dropped_stream_continues c7fields ⟨none, none, 0⟩
        [] rfl).2.2.1 "notanumber" rfl rfl)⟩

/-- C5.  `sign_query` canonicalizes the parameters exactly as the spec
words it — insertion-ordered URL-encoded `key=value` pairs joined by
`&` — then computes the HMAC-SHA256 hex digest of that string keyed by
the secret; as a pure function it is deterministic.  The two closing
conjuncts evaluate the embedding on concrete inputs and match CPython's
`urlencode`/`hmac` output byte for byte. -/
theorem sign_query_canonical_and_deterministic :
    (∀ params secret,
      sign_query params secret =
        hmacSha256Hex (utf8Bytes secret) (utf8Bytes (specCanonicalQuery params))) ∧
    (∀ params secret, sign_query params secret = sign_query params secret) ∧
    urlencode [("symbol", "BTC USDT"), ("ts", "1&2=3")] =
      "symbol=BTC+USDT&ts=1%262%3D3" ∧
    sign_query [("symbol", "BTCUSDT"), ("timestamp", "1700000000000")] "sec" =
      "dec9f2d970a24be2c3e020ef14377dcb971a6541688ac078eca5a09a3bc5ed25" :=
  ⟨fun _ _ => rfl, fun _ _ => rfl, by decide, by decide⟩

/-- C8 counterexample.  With bid = 100.0 and ask = 102.0 the mid-price is
101.0, but the limit prices the code submits are *not* 95.95 and 106.05:
those values are not representable at the one-decimal precision the code
formats to (`f"{...:.1f}"`; CPython prints 95.9 and 106.1). -/
theorem one_decimal_rounding_breaks_claimed_limits :
    mid_price 100 102 = 101 ∧
    limit_price Side.BUY (mid_price 100 102) ≠ 1919/20 ∧
    limit_price Side.SELL (mid_price 100 102) ≠ 2121/20 := by
  refine ⟨by norm_num [mid_price], ?_, ?_⟩
  · norm_num [limit_price, mid_price, roundTenths, BUY_PRICE_RATIO]
  · norm_num [limit_price, mid_price, roundTenths, SELL_PRICE_RATIO]

/-- C8 amended.  The decision step computes mid = (bid+ask)/2 and the
limit as mid×ratio rounded to one decimal; bid=100, ask=102 gives
mid=101 with *unrounded* limits 95.95 (BUY, ratio 0.95) and 106.05
(SELL, ratio 1.05) — but the one-decimal rounding always lands on a
multiple of 1/10, which neither 95.95 nor 106.05 is, so the submitted
prices differ from them (95.9 and 106.1 in the program). -/
theorem limit_price_formula_and_rounding_grid :
    (∀ b a : ℚ, mid_price b a = (b + a) / 2) ∧
    (∀ mid : ℚ, limit_price Side.BUY mid = roundTenths (mid * BUY_PRICE_RATIO)) ∧
    (∀ mid : ℚ, limit_price Side.SELL mid = roundTenths (mid * SELL_PRICE_RATIO)) ∧
    mid_price 100 102 = 101 ∧
    mid_price 100 102 * BUY_PRICE_RATIO = 1919/20 ∧
    mid_price 100 102 * SELL_PRICE_RATIO = 2121/20 ∧
    (∀ x : ℚ, ∃ k : ℤ, roundTenths x = (k : ℚ) / 10) ∧
    (∀ k : ℤ, ((k : ℚ) / 10) ≠ 1919/20) ∧
    (∀ k : ℤ, ((k : ℚ) / 10) ≠ 2121/20) := by
  refine ⟨fun _ _ => rfl, fun _ => rfl, fun _ => rfl,
    by norm_num [mid_price],
    by norm_num [mid_price, BUY_PRICE_RATIO],
    by norm_num [mid_price, SELL_PRICE_RATIO],
    fun x => ⟨⌊x * 10 + 1 / 2⌋, rfl⟩, ?_, ?_⟩
  · intro k h
    rw [div_eq_div_iff (by norm_num) (by norm_num)] at h
    have hk : (k * 20 : ℤ) = 19190 := by exact_mod_cast h
    omega
  · intro k h
    rw [div_eq_div_iff (by norm_num) (by norm_num)] at h
    have hk : (k * 20 : ℤ) = 21210 := by exact_mod_cast h
    omega

/-- C10.  For both REST requests the signature is computed over exactly
the other parameters, in their fixed insertion order, and appended to the
mapping afterwards — `signature` is not among the signed keys. -/
theorem signature_over_other_params_in_order
    (secret symbol side qty price : String) (ts : Nat) :
    place_order_params secret symbol side qty price ts =
      [("symbol", symbol), ("side", side), ("type", "LIMIT"),
       ("timeInForce", "GTC"), ("quantity", qty), ("price", price),
       ("timestamp", toString ts)] ++
      [("signature", sign_query
        [("symbol", symbol), ("side", side), ("type", "LIMIT"),
         ("timeInForce", "GTC"), ("quantity", qty), ("price", price),
         ("timestamp", toString ts)] secret)] ∧
    (place_order_params secret symbol side qty price ts).map Prod.fst =
      ["symbol", "side", "type", "timeInForce", "quantity", "price",
       "timestamp", "signature"] ∧
    cancel_all_orders_params secret symbol ts =
      [("symbol", symbol), ("timestamp", toString ts)] ++
      [("signature", sign_query
        [("symbol", symbol), ("timestamp", toString ts)] secret)] ∧
    (cancel_all_orders_params secret symbol ts).map Prod.fst =
      ["symbol", "timestamp", "signature"] ∧
    "signature" ∉ (["symbol", "side", "type", "timeInForce", "quantity",
      "price", "timestamp"] : List String) := by
  refine ⟨rfl, ?_, rfl, ?_, by decide⟩
  · simp [place_order_params]
  · simp [cancel_all_orders_params]
